import Mathlib

/-!
Verification of the openclaw gateway client (src/dist-client/entry-client.js).

The development shallowly embeds the parts of the client that the checked
properties talk about:

* the device-auth token store (loadDeviceAuthToken / storeDeviceAuthToken /
  clearDeviceAuthToken, src/infra/device-auth-store.ts region);
* the canonical device-auth payload builder (buildDeviceAuthPayload,
  src/gateway/device-auth.ts region);
* the GatewayClient protocol engine (queueConnect / sendConnect /
  handleMessage / scheduleReconnect / startTickWatch / stop,
  src/gateway/client.ts region), modelled as explicit state passing with an
  effect list in place of callbacks, socket writes and timer registrations;
* the credential resolution of callGateway (src/gateway/call.ts region).

Modelling conventions: JavaScript strings are Lean String, JavaScript
numbers that the client uses as times or intervals are Int, undefined/null
is Option, and the truthiness tests of the source are made explicit.
Request ids (randomUUID in the source) are abstracted as naturals drawn
from a per-client counter. The WebSocket is modelled as a Bool meaning
"a socket is present and open". TLS fingerprint checking, schema
validation of outgoing frames and the crypto signing step are outside the
checked claims and are not modelled; incoming frames are modelled after
they passed the Ajv frame validators, as one constructor per frame kind.
-/

/-- Minimal JSON value model for unvalidated payload fields. -/
inductive JsonValue where
  | null : JsonValue
  | bool (b : Bool) : JsonValue
  | num (n : Int) : JsonValue
  | str (s : String) : JsonValue
  | arr (xs : List JsonValue) : JsonValue
  | obj (fields : List (String × JsonValue)) : JsonValue

/-- Property lookup on a JSON object field list (first match wins). -/
def lookupField : List (String × JsonValue) → String → Option JsonValue
  | [], _ => none
  | (k, v) :: rest, key => if k == key then some v else lookupField rest key

/-- JavaScript truthiness of an optional string: undefined, null and the
empty string are falsy. -/
def jsTruthyStr : Option String → Bool
  | none => false
  | some s => s != ""

/-- The trim of JavaScript strings: strip leading and trailing whitespace.
Written by structural recursion over the character list so that concrete
instances evaluate. -/
def jsTrim (s : String) : String :=
  String.mk (((s.data.dropWhile Char.isWhitespace).reverse.dropWhile
    Char.isWhitespace).reverse)

/-- The trim-and-require-nonempty idiom of the source
(typeof x === "string" and x.trim().length > 0 ? x.trim() : undefined). -/
def trimmedNonempty : Option String → Option String
  | none => none
  | some s => let t := jsTrim s; if t == "" then none else some t

/-! ### Device auth token store (src/infra/device-auth-store.ts) -/

/-- One stored token entry, as written by storeDeviceAuthToken. -/
structure TokenEntry where
  token : String
  role : String
  scopes : List String
  updatedAtMs : Int
deriving DecidableEq, Repr

/-- The on-disk store file content: version 1, one deviceId, a role-keyed
token map (modelled as an association list, JSON object key order). -/
structure DeviceAuthStore where
  deviceId : String
  tokens : List (String × TokenEntry)
deriving DecidableEq, Repr

/-- Role normalization: role.trim(). -/
def normalizeRole (role : String) : String := jsTrim role

/-- Lexicographic comparison of character lists by code point, modelling
the default JavaScript string ordering. -/
def charListLe : List Char → List Char → Bool
  | [], _ => true
  | _ :: _, [] => false
  | c :: cs, d :: ds =>
    if c.toNat < d.toNat then true
    else if d.toNat < c.toNat then false
    else charListLe cs ds

/-- Lexicographic string comparison by code point. -/
def strLe (a b : String) : Bool := charListLe a.data b.data

/-- Insertion sort step for JavaScript toSorted over distinct strings. -/
def insertSorted (x : String) : List String → List String
  | [] => [x]
  | y :: ys => if strLe x y then x :: y :: ys else y :: insertSorted x ys

/-- Sort a list of strings (the elements are distinct after dedup, so any
stable comparison-sort agrees with toSorted). -/
def sortStrings : List String → List String
  | [] => []
  | x :: xs => insertSorted x (sortStrings xs)

/-- Set-insertion dedup preserving first occurrence order. -/
def dedupFirst : List String → List String → List String
  | [], acc => acc.reverse
  | x :: xs, acc => if x ∈ acc then dedupFirst xs acc else dedupFirst xs (x :: acc)

/-- Scope normalization of the source: trim each scope, drop empties,
dedupe via a Set, sort. -/
def normalizeScopes (scopes : List String) : List String :=
  sortStrings (dedupFirst ((scopes.map jsTrim).filter (fun s => s != "")) [])

/-- Association list lookup for the role-keyed token map. -/
def lookupRole : List (String × TokenEntry) → String → Option TokenEntry
  | [], _ => none
  | (k, v) :: rest, key => if k == key then some v else lookupRole rest key

/-- Upsert into the role-keyed token map: replace in place if the role is
present, append otherwise (JavaScript object key semantics). -/
def upsertRole (m : List (String × TokenEntry)) (key : String) (v : TokenEntry) :
    List (String × TokenEntry) :=
  if (lookupRole m key).isSome then
    m.map (fun kv => if kv.1 == key then (kv.1, v) else kv)
  else
    m ++ [(key, v)]

/-- Delete from the role-keyed token map. -/
def deleteRole (m : List (String × TokenEntry)) (key : String) :
    List (String × TokenEntry) :=
  m.filter (fun kv => kv.1 != key)

/-- loadDeviceAuthToken: returns the entry only when the store exists, its
deviceId matches, and the normalized role has an entry. The store argument
stands for readStore(resolveDeviceAuthPath(env)). -/
def loadDeviceAuthToken (deviceId role : String) (store : Option DeviceAuthStore) :
    Option TokenEntry :=
  match store with
  | none => none
  | some st =>
    if st.deviceId != deviceId then none
    else lookupRole st.tokens (normalizeRole role)

/-- storeDeviceAuthToken: keeps the existing token map only when the
existing store carries the same deviceId, otherwise starts from an empty
map; then upserts the normalized role with the fresh entry. Returns the
store that writeStore persists. -/
def storeDeviceAuthToken (deviceId role token : String) (scopes : List String)
    (now : Int) (existing : Option DeviceAuthStore) : DeviceAuthStore :=
  let r := normalizeRole role
  let base : List (String × TokenEntry) :=
    match existing with
    | some st => if st.deviceId == deviceId then st.tokens else []
    | none => []
  let entry : TokenEntry :=
    { token := token, role := r, scopes := normalizeScopes scopes, updatedAtMs := now }
  { deviceId := deviceId, tokens := upsertRole base r entry }

/-- clearDeviceAuthToken: removes one role entry when the store exists,
matches the deviceId and holds that role; otherwise leaves the store as it
was. Returns the resulting on-disk state. -/
def clearDeviceAuthToken (deviceId role : String) (store : Option DeviceAuthStore) :
    Option DeviceAuthStore :=
  match store with
  | none => none
  | some st =>
    if st.deviceId != deviceId then some st
    else
      let r := normalizeRole role
      if (lookupRole st.tokens r).isNone then some st
      else some { deviceId := st.deviceId, tokens := deleteRole st.tokens r }

/-! ### Canonical device-auth payload (src/gateway/device-auth.ts) -/

/-- Parameters of buildDeviceAuthPayload. The optional version override and
the nullable token and nonce mirror the source signature. -/
structure DeviceAuthPayloadParams where
  version : Option String
  deviceId : String
  clientId : String
  clientMode : String
  role : String
  scopes : List String
  signedAtMs : Int
  token : Option String
  nonce : Option String

/-- buildDeviceAuthPayload: version defaults to v2 exactly when the nonce
is truthy; the eight base fields are joined with a vertical bar, and when
the version is v2 the nonce (or empty string) is appended as a ninth
field. -/
def buildDeviceAuthPayload (p : DeviceAuthPayloadParams) : String :=
  let version := p.version.getD (if jsTruthyStr p.nonce then "v2" else "v1")
  let scopes := String.intercalate "," p.scopes
  let token := p.token.getD ""
  let base := [version, p.deviceId, p.clientId, p.clientMode, p.role, scopes,
               toString p.signedAtMs, token]
  let base := if version == "v2" then base ++ [p.nonce.getD ""] else base
  String.intercalate "|" base

/-! ### GatewayClient state (src/gateway/client.ts constructor fields) -/

/-- One pending request table entry (the resolve and reject continuations
are modelled by effects carrying the request id). -/
structure PendingEntry where
  expectFinal : Bool
deriving DecidableEq, Repr

/-- The mutable fields of a GatewayClient instance. Constructor defaults:
no socket, empty pending map, backoff 1000, not closed, no sequence seen,
no nonce, connect not sent, no connect timer, no tick seen, tick interval
30000, no tick timer. nextId abstracts the randomUUID request id supply. -/
structure ClientState where
  wsOpen : Bool
  pending : List (Nat × PendingEntry)
  backoffMs : Nat
  closed : Bool
  lastSeq : Option Nat
  connectNonce : Option String
  connectSent : Bool
  connectTimer : Bool
  lastTick : Option Int
  tickIntervalMs : Int
  tickTimer : Bool
  nextId : Nat

/-- The field values the constructor installs. -/
def initClientState : ClientState :=
  { wsOpen := false, pending := [], backoffMs := 1000, closed := false,
    lastSeq := none, connectNonce := none, connectSent := false,
    connectTimer := false, lastTick := none, tickIntervalMs := 30000,
    tickTimer := false, nextId := 0 }

/-- The constructor options the modelled methods read. deviceIdentity is
abstracted to its deviceId. -/
structure GatewayOptions where
  token : Option String
  password : Option String
  role : Option String
  scopes : Option (List String)
  deviceIdentity : Option String

/-- Validated incoming event frame (EventFrameSchema: event nonempty,
optional payload, optional integer seq at least zero). -/
structure EventFrame where
  event : String
  payload : Option JsonValue
  seq : Option Nat

/-- Error shape carried on failed responses (code and message strings). -/
structure ErrorShape where
  code : String
  message : String

/-- Validated incoming response frame (ResponseFrameSchema), with the id
abstracted to the natural that request generated for it. -/
structure ResponseFrame where
  id : Nat
  ok : Bool
  payload : Option JsonValue
  error : Option ErrorShape

/-- An incoming message after JSON parsing and Ajv validation: an event
frame, a response frame, or anything that both validators refuse (the
source logs and drops those). -/
inductive Frame where
  | event (e : EventFrame) : Frame
  | response (r : ResponseFrame) : Frame
  | invalid : Frame

/-- Observable actions of the client: frames written to the socket,
callback invocations, token store writes, timer registrations and socket
closes. The connectSend effect records the nonce the connect request and
its device block carry (none for a v1 attempt). -/
inductive Effect where
  | connectSend (nonce : Option String) : Effect
  | gapReport (expected received : Nat) : Effect
  | emitEvent (e : EventFrame) : Effect
  | resolveReq (id : Nat) (payload : Option JsonValue) : Effect
  | rejectReq (id : Nat) (msg : String) : Effect
  | closeSocket (code : Option Nat) (reason : Option String) : Effect
  | connectError (msg : String) : Effect
  | clearToken (deviceId role : String) : Effect
  | storeToken (deviceId role token : String) (scopes : List String) : Effect
  | onCloseCb (code : Nat) (reason : String) : Effect
  | onHelloOkCb : Effect
  | scheduleTimer (delayMs : Nat) : Effect

/-! ### GatewayClient operations -/

/-- Pending table lookup by request id. -/
def lookupPending : List (Nat × PendingEntry) → Nat → Option PendingEntry
  | [], _ => none
  | (k, v) :: rest, key => if k == key then some v else lookupPending rest key

/-- Pending table removal by request id. -/
def removePending (m : List (Nat × PendingEntry)) (key : Nat) :
    List (Nat × PendingEntry) :=
  m.filter (fun kv => kv.1 != key)

/-- The status field test of handleMessage: parsed.payload?.status is the
string accepted. -/
def statusIsAccepted (payload : Option JsonValue) : Bool :=
  match payload with
  | some (JsonValue.obj fields) =>
    match lookupField fields "status" with
    | some (JsonValue.str s) => s == "accepted"
    | _ => false
  | _ => false

/-- The nonce extraction of the connect.challenge branch: a truthy string
property nonce of a truthy payload object. -/
def challengeNonce (payload : Option JsonValue) : Option String :=
  match payload with
  | some (JsonValue.obj fields) =>
    match lookupField fields "nonce" with
    | some (JsonValue.str s) => if s == "" then none else some s
    | _ => none
  | _ => none

/-- Effects of the catch handler of the connect request inside sendConnect:
when a stored token was used and a static token is configured (and a device
identity exists) clear the stored token, then report the connect error,
then close the socket with 1008 when one is present. storedToken stands for
the token loadDeviceAuthToken returned at send time. -/
def connectFailureEffects (opts : GatewayOptions) (storedToken : Option String)
    (wsPresent : Bool) (errMsg : String) : List Effect :=
  let canFallbackToShared := jsTruthyStr storedToken && jsTruthyStr opts.token
  (if canFallbackToShared then
    match opts.deviceIdentity with
    | some d => [Effect.clearToken d (opts.role.getD "operator")]
    | none => []
  else [])
  ++ [Effect.connectError errMsg]
  ++ (if wsPresent then [Effect.closeSocket (some 1008) (some "connect failed")] else [])

/-- The hello-ok fields the then handler of the connect request reads from
the (unvalidated) response payload: the issued token block and the numeric
policy tick interval. policyTickIntervalMs is some exactly when the field
is a number. -/
structure HelloOkView where
  authDeviceToken : Option String
  authRole : Option String
  authScopes : Option (List String)
  policyTickIntervalMs : Option Int

/-- startTickWatch: replaces any running tick timer by a fresh one. The
interval length is given by tickWatchPeriod. -/
def startTickWatch (s : ClientState) : ClientState :=
  { s with tickTimer := true }

/-- The tick watchdog interval length: max(tickIntervalMs, 1000). -/
def tickWatchPeriod (s : ClientState) : Int :=
  max s.tickIntervalMs 1000

/-- Effects of the then handler of the connect request: persist a freshly
issued device token, reset backoff to 1000, adopt the numeric policy tick
interval (default 30000), record lastTick now, start the tick watchdog and
invoke onHelloOk. -/
def connectSuccess (opts : GatewayOptions) (hello : HelloOkView) (now : Int)
    (s : ClientState) : ClientState × List Effect :=
  let role := opts.role.getD "operator"
  let storeEffs :=
    if jsTruthyStr hello.authDeviceToken then
      match opts.deviceIdentity, hello.authDeviceToken with
      | some d, some tok =>
        [Effect.storeToken d (hello.authRole.getD role) tok (hello.authScopes.getD [])]
      | _, _ => []
    else []
  let s1 := { s with backoffMs := 1000,
                     tickIntervalMs := hello.policyTickIntervalMs.getD 30000,
                     lastTick := some now }
  (startTickWatch s1, storeEffs ++ [Effect.onHelloOkCb])

/-- One firing of the tick watchdog callback: nothing when closed or when
lastTick is falsy; force-close with 4000 when now minus lastTick exceeds
twice the tick interval and a socket is present. -/
def tickWatchFire (now : Int) (s : ClientState) : List Effect :=
  if s.closed then []
  else
    match s.lastTick with
    | none => []
    | some lt =>
      if lt == 0 then []
      else if now - lt > 2 * s.tickIntervalMs then
        (if s.wsOpen then [Effect.closeSocket (some 4000) (some "tick timeout")] else [])
      else []

/-- sendConnect: a no-op when a connect was already sent on this
connection; otherwise marks it sent, cancels the debounce timer, and (ws
permitting) registers a pending entry for the connect request and writes
the connect frame whose device block carries the current challenge nonce.
When the socket is not open the request call rejects at once and the catch
handler of the connect promise runs. -/
def sendConnect (opts : GatewayOptions) (storedToken : Option String)
    (s : ClientState) : ClientState × List Effect :=
  if s.connectSent then (s, [])
  else
    let s1 := { s with connectSent := true, connectTimer := false }
    if s1.wsOpen then
      ({ s1 with pending := s1.pending ++ [(s1.nextId, { expectFinal := false })],
                 nextId := s1.nextId + 1 },
       [Effect.connectSend s1.connectNonce])
    else
      (s1, connectFailureEffects opts storedToken false "gateway not connected")

/-- queueConnect: clears the nonce, re-arms the connect attempt and starts
the 750 ms debounce timer. -/
def queueConnect (s : ClientState) : ClientState :=
  { s with connectNonce := none, connectSent := false, connectTimer := true }

/-- handleMessage on a validated frame: connect.challenge events with a
truthy nonce drive an immediate signed resend and never surface; other
events update gap tracking for numeric seq, refresh lastTick on tick, and
are forwarded verbatim; responses settle their pending entry unless it
expects a final response and the payload status is accepted. -/
def handleMessage (opts : GatewayOptions) (storedToken : Option String)
    (now : Int) (f : Frame) (s : ClientState) : ClientState × List Effect :=
  match f with
  | Frame.event evt =>
    if evt.event == "connect.challenge" then
      match challengeNonce evt.payload with
      | some nonce => sendConnect opts storedToken { s with connectNonce := some nonce }
      | none => (s, [])
    else
      let gapStep : ClientState × List Effect :=
        match evt.seq with
        | some seq =>
          let gapEffs :=
            match s.lastSeq with
            | some last => if seq > last + 1 then [Effect.gapReport (last + 1) seq] else []
            | none => []
          ({ s with lastSeq := some seq }, gapEffs)
        | none => (s, [])
      let s1 := gapStep.1
      let s2 := if evt.event == "tick" then { s1 with lastTick := some now } else s1
      (s2, gapStep.2 ++ [Effect.emitEvent evt])
  | Frame.response r =>
    match lookupPending s.pending r.id with
    | none => (s, [])
    | some entry =>
      if entry.expectFinal && statusIsAccepted r.payload then (s, [])
      else
        let s1 := { s with pending := removePending s.pending r.id }
        if r.ok then (s1, [Effect.resolveReq r.id r.payload])
        else
          (s1, [Effect.rejectReq r.id
            (match r.error with
             | some e => e.message
             | none => "unknown error")])
  | Frame.invalid => (s, [])

/-- scheduleReconnect: nothing when the client was stopped; otherwise stop
the tick timer, schedule a restart after the current backoff and double
the backoff capped at 30000. Returns the scheduled delay. -/
def scheduleReconnect (s : ClientState) : ClientState × Option Nat :=
  if s.closed then (s, none)
  else
    let s1 := { s with tickTimer := false }
    let delay := s1.backoffMs
    ({ s1 with backoffMs := min (s1.backoffMs * 2) 30000 }, some delay)

/-- flushPendingErrors: reject every pending request with the given message
and clear the table. -/
def flushPendingErrors (msg : String) (s : ClientState) : ClientState × List Effect :=
  ({ s with pending := [] },
   s.pending.map (fun kv => Effect.rejectReq kv.1 msg))

/-- The close handler of the socket: drop the socket, reject all pending
requests with the close reason, schedule a reconnect and invoke onClose. -/
def handleClose (code : Nat) (reason : String) (s : ClientState) :
    ClientState × List Effect :=
  let s1 := { s with wsOpen := false }
  let flushed := flushPendingErrors ("gateway closed (" ++ toString code ++ "): " ++ reason) s1
  let sched := scheduleReconnect flushed.1
  (sched.1,
   flushed.2
   ++ (match sched.2 with
       | some delay => [Effect.scheduleTimer delay]
       | none => [])
   ++ [Effect.onCloseCb code reason])

/-- stop: mark closed, clear the tick timer, close and drop the socket and
reject every pending request. The connect debounce timer is not touched. -/
def stop (s : ClientState) : ClientState × List Effect :=
  let s1 := { s with closed := true, tickTimer := false }
  let closeEffs := if s1.wsOpen then [Effect.closeSocket none none] else []
  let s2 := { s1 with wsOpen := false }
  let flushed := flushPendingErrors "gateway client stopped" s2
  (flushed.1, closeEffs ++ flushed.2)

/-! ### Connection-level step relation -/

/-- The externally induced happenings of one connection that the modelled
methods react to: the socket open callback, the 750 ms debounce timer
firing, the socket close callback and an incoming message. -/
inductive ConnEvent where
  | wsOpenEvt : ConnEvent
  | timerFire : ConnEvent
  | wsCloseEvt (code : Nat) (reason : String) : ConnEvent
  | msg (f : Frame) : ConnEvent

/-- One reaction step of the client. The open callback (TLS pinning aside)
queues the debounced connect; the debounce timer, when still armed, sends
the undebounced connect. -/
def step (opts : GatewayOptions) (storedToken : Option String) (now : Int)
    (e : ConnEvent) (s : ClientState) : ClientState × List Effect :=
  match e with
  | ConnEvent.wsOpenEvt => (queueConnect { s with wsOpen := true }, [])
  | ConnEvent.timerFire =>
    if s.connectTimer then sendConnect opts storedToken { s with connectTimer := false }
    else (s, [])
  | ConnEvent.wsCloseEvt code reason => handleClose code reason s
  | ConnEvent.msg f => handleMessage opts storedToken now f s

/-- Run a timed event list, accumulating effects in order. -/
def runEvents (opts : GatewayOptions) (storedToken : Option String) :
    List (Int × ConnEvent) → ClientState → ClientState × List Effect
  | [], s => (s, [])
  | (now, e) :: rest, s =>
    let r1 := step opts storedToken now e s
    let r2 := runEvents opts storedToken rest r1.1
    (r2.1, r1.2 ++ r2.2)

/-- Recognize a v1 (nonce-less) connect frame write. -/
def isV1ConnectSend : Effect → Bool
  | Effect.connectSend none => true
  | _ => false

/-- Recognize a v2 connect frame write carrying the given nonce. -/
def isV2ConnectSendWith (n : String) : Effect → Bool
  | Effect.connectSend (some m) => m == n
  | _ => false

/-- Recognize any connect frame write. -/
def isConnectSend : Effect → Bool
  | Effect.connectSend _ => true
  | _ => false

/-- Recognize a gap report. -/
def isGapReport : Effect → Bool
  | Effect.gapReport _ _ => true
  | _ => false

/-- Recognize an event forwarded to the caller. -/
def isEmitEvent : Effect → Bool
  | Effect.emitEvent _ => true
  | _ => false

/-! ### callGateway credential resolution (src/gateway/call.ts) -/

/-- The inputs of the credential resolution inside callGateway: explicit
options, the gateway section of the loaded config and the process
environment variables that the resolution reads. -/
structure CallGatewayInputs where
  optsToken : Option String
  optsPassword : Option String
  optsUrl : Option String
  gatewayMode : Option String
  remoteToken : Option String
  remotePassword : Option String
  envOpenclawToken : Option String
  envClawdbotToken : Option String
  envOpenclawPassword : Option String
  envClawdbotPassword : Option String
  configAuthToken : Option String
  configAuthPassword : Option String

/-- resolveExplicitGatewayAuth applied to the token flag. -/
def explicitGatewayToken (i : CallGatewayInputs) : Option String :=
  trimmedNonempty i.optsToken

/-- resolveExplicitGatewayAuth applied to the password flag. -/
def explicitGatewayPassword (i : CallGatewayInputs) : Option String :=
  trimmedNonempty i.optsPassword

/-- The remote-mode guard: config.gateway?.mode === "remote" (remote config
fields are consulted only then). -/
def isRemoteMode (i : CallGatewayInputs) : Bool :=
  i.gatewayMode == some "remote"

/-- The url override: a trimmed nonempty opts.url. -/
def gatewayUrlOverride (i : CallGatewayInputs) : Option String :=
  trimmedNonempty i.optsUrl

/-- The token handed to the GatewayClient by callGateway: explicit flag
first; with a url override nothing else; in remote mode only the trimmed
config remote token; otherwise the OPENCLAW then CLAWDBOT env token, then
the trimmed config gateway auth token. -/
def resolveGatewayToken (i : CallGatewayInputs) : Option String :=
  match explicitGatewayToken i with
  | some t => some t
  | none =>
    if (gatewayUrlOverride i).isSome then none
    else if isRemoteMode i then trimmedNonempty i.remoteToken
    else
      match trimmedNonempty i.envOpenclawToken with
      | some t => some t
      | none =>
        match trimmedNonempty i.envClawdbotToken with
        | some t => some t
        | none => trimmedNonempty i.configAuthToken

/-- The password handed to the GatewayClient by callGateway: explicit flag
first; with a url override nothing else; then the OPENCLAW and CLAWDBOT env
passwords; then the trimmed config remote password in remote mode and the
trimmed config gateway auth password otherwise. -/
def resolveGatewayPassword (i : CallGatewayInputs) : Option String :=
  match explicitGatewayPassword i with
  | some t => some t
  | none =>
    if (gatewayUrlOverride i).isSome then none
    else
      match trimmedNonempty i.envOpenclawPassword with
      | some t => some t
      | none =>
        match trimmedNonempty i.envClawdbotPassword with
        | some t => some t
        | none =>
          if isRemoteMode i then trimmedNonempty i.remotePassword
          else trimmedNonempty i.configAuthPassword

/-- First trimmed nonempty value of an ordered source list. -/
def firstTrimmedNonempty : List (Option String) → Option String
  | [] => none
  | src :: rest =>
    match trimmedNonempty src with
    | some t => some t
    | none => firstTrimmedNonempty rest

/-- The precedence order the claim asserts for the token, written from the
words of the spec: explicit flag, then the OPENCLAW env token, then the
config-stored credential (the remote token in remote mode, the gateway auth
token otherwise). -/
def claimedTokenOrder (i : CallGatewayInputs) : List (Option String) :=
  [i.optsToken, i.envOpenclawToken,
   if isRemoteMode i then i.remoteToken else i.configAuthToken]

/-- The source list the code actually consults for the token, in order. -/
def actualTokenOrder (i : CallGatewayInputs) : List (Option String) :=
  [i.optsToken]
  ++ (if (gatewayUrlOverride i).isSome then []
      else if isRemoteMode i then [i.remoteToken]
      else [i.envOpenclawToken, i.envClawdbotToken, i.configAuthToken])

/-- The source list the code actually consults for the password, in order. -/
def actualPasswordOrder (i : CallGatewayInputs) : List (Option String) :=
  [i.optsPassword]
  ++ (if (gatewayUrlOverride i).isSome then []
      else [i.envOpenclawPassword, i.envClawdbotPassword]
         ++ (if isRemoteMode i then [i.remotePassword] else [i.configAuthPassword]))

/-! ### Concrete frames for scenario claims -/

/-- A connect.challenge event frame carrying the given nonce. -/
def challengeFrame (n : String) : Frame :=
  Frame.event { event := "connect.challenge",
                payload := some (JsonValue.obj [("nonce", JsonValue.str n)]),
                seq := none }

/-- A plain payload-free event frame with a sequence number. -/
def seqFrame (name : String) (n : Nat) : Frame :=
  Frame.event { event := name, payload := none, seq := some n }

/-- Events that may precede the challenge in a connection without touching
the queued connect attempt: incoming messages that do not carry a truthy
challenge nonce. -/
def isQuietPre : ConnEvent → Bool
  | ConnEvent.msg (Frame.event e) =>
    !(e.event == "connect.challenge" && (challengeNonce e.payload).isSome)
  | ConnEvent.msg _ => true
  | _ => false

/-- Recognize the socket open callback among connection events. -/
def isWsOpenEvt : ConnEvent → Bool
  | ConnEvent.wsOpenEvt => true
  | _ => false

/-! ### Helper lemmas -/

theorem lookupRole_deleteRole (m : List (String × TokenEntry)) (r : String) :
    lookupRole (deleteRole m r) r = none := by
  induction m with
  | nil => rfl
  | cons kv rest ih =>
    simp only [deleteRole] at ih ⊢
    by_cases h : kv.1 = r
    · have hb : (kv.1 != r) = false := by simp [h]
      simpa [List.filter_cons, hb] using ih
    · have hb : (kv.1 != r) = true := by simp [h]
      simpa [List.filter_cons, hb, lookupRole, h] using ih

/-- C2: buildDeviceAuthPayload (without a version override, as at its one
call site) joins version, deviceId, clientId, clientMode, role, the
comma-joined scopes, the decimal signedAtMs and the token-or-empty with a
vertical bar; exactly when a (nonempty) nonce is present the version is v2
and the nonce is appended as a ninth field, otherwise the version is v1
with eight fields. -/
theorem buildDeviceAuthPayload_spec (p : DeviceAuthPayloadParams)
    (hv : p.version = none) :
    (∀ n, p.nonce = some n → n ≠ "" →
      buildDeviceAuthPayload p =
        String.intercalate "|"
          ["v2", p.deviceId, p.clientId, p.clientMode, p.role,
           String.intercalate "," p.scopes, toString p.signedAtMs,
           p.token.getD "", n]) ∧
    ((p.nonce = none ∨ p.nonce = some "") →
      buildDeviceAuthPayload p =
        String.intercalate "|"
          ["v1", p.deviceId, p.clientId, p.clientMode, p.role,
           String.intercalate "," p.scopes, toString p.signedAtMs,
           p.token.getD ""]) := by
  constructor
  · intro n hn hne
    simp [buildDeviceAuthPayload, hv, hn, jsTruthyStr, hne]
  · rintro (h | h) <;> simp [buildDeviceAuthPayload, hv, h, jsTruthyStr]

/-- Witness for C2 at concrete fields, both with and without a nonce. -/
theorem buildDeviceAuthPayload_spec_witness :
    buildDeviceAuthPayload
      { version := none, deviceId := "dev", clientId := "cli",
        clientMode := "backend", role := "operator", scopes := ["a", "b"],
        signedAtMs := 5, token := some "tok", nonce := some "n1" }
      = "v2|dev|cli|backend|operator|a,b|5|tok|n1" ∧
    buildDeviceAuthPayload
      { version := none, deviceId := "dev", clientId := "cli",
        clientMode := "backend", role := "operator", scopes := ["a", "b"],
        signedAtMs := 5, token := none, nonce := none }
      = "v1|dev|cli|backend|operator|a,b|5|" := by
  constructor
  · have h := (buildDeviceAuthPayload_spec
      { version := none, deviceId := "dev", clientId := "cli",
        clientMode := "backend", role := "operator", scopes := ["a", "b"],
        signedAtMs := 5, token := some "tok", nonce := some "n1" } rfl).1
      "n1" rfl (by decide)
    simpa using h
  · have h := (buildDeviceAuthPayload_spec
      { version := none, deviceId := "dev", clientId := "cli",
        clientMode := "backend", role := "operator", scopes := ["a", "b"],
        signedAtMs := 5, token := none, nonce := none } rfl).2
      (Or.inl rfl)
    simpa using h

/-- C10: after storeDeviceAuthToken with deviceId d the persisted store
carries deviceId d; when the previous store carried a different deviceId
every previously stored role entry is discarded, leaving exactly the fresh
entry; and loadDeviceAuthToken with any other deviceId on the resulting
store returns none. -/
theorem storeDeviceAuthToken_single_device (d role token : String)
    (scopes : List String) (now : Int) (prev : Option DeviceAuthStore) :
    (storeDeviceAuthToken d role token scopes now prev).deviceId = d ∧
    ((∀ st, prev = some st → st.deviceId ≠ d) →
      (storeDeviceAuthToken d role token scopes now prev).tokens =
        [(normalizeRole role,
          { token := token, role := normalizeRole role,
            scopes := normalizeScopes scopes, updatedAtMs := now })]) ∧
    (∀ d2 r2, d2 ≠ d →
      loadDeviceAuthToken d2 r2
        (some (storeDeviceAuthToken d role token scopes now prev)) = none) := by
  refine ⟨rfl, ?_, ?_⟩
  · intro hdiff
    match prev with
    | none => simp [storeDeviceAuthToken, upsertRole, lookupRole]
    | some st =>
      have hne : st.deviceId ≠ d := hdiff st rfl
      simp [storeDeviceAuthToken, hne, upsertRole, lookupRole]
  · intro d2 r2 hne
    have hdd : d ≠ d2 := fun h => hne h.symm
    simp [loadDeviceAuthToken, storeDeviceAuthToken, hdd]

/-- Witness for C10: a store for a different device is wiped by the new
write and unreadable under a third deviceId. -/
theorem storeDeviceAuthToken_single_device_witness :
    (storeDeviceAuthToken "dev" "operator" "tok" ["b", "a", "a"] 7
      (some { deviceId := "other",
              tokens := [("r0", { token := "t0", role := "r0", scopes := [],
                                  updatedAtMs := 0 })] })).deviceId = "dev" ∧
    (storeDeviceAuthToken "dev" "operator" "tok" ["b", "a", "a"] 7
      (some { deviceId := "other",
              tokens := [("r0", { token := "t0", role := "r0", scopes := [],
                                  updatedAtMs := 0 })] })).tokens =
      [("operator", { token := "tok", role := "operator",
                      scopes := ["a", "b"], updatedAtMs := 7 })] ∧
    loadDeviceAuthToken "dev2" "operator"
      (some (storeDeviceAuthToken "dev" "operator" "tok" ["b", "a", "a"] 7
        (some { deviceId := "other",
                tokens := [("r0", { token := "t0", role := "r0", scopes := [],
                                    updatedAtMs := 0 })] }))) = none := by
  have h := storeDeviceAuthToken_single_device "dev" "operator" "tok"
    ["b", "a", "a"] 7
    (some { deviceId := "other",
            tokens := [("r0", { token := "t0", role := "r0", scopes := [],
                                updatedAtMs := 0 })] })
  refine ⟨h.1, ?_, h.2.2 "dev2" "operator" (by decide)⟩
  have h2 := h.2.1 (by intro st hst; cases hst; decide)
  rw [h2]
  decide

/-- C7: when the connect request fails after an attempt that used a stored
device token while a static token is also configured, the effects of the
failure handler are, in order: clear the (deviceId, role) entry of the
token cache, report the error through onConnectError, close the socket
with 1008; and clearing indeed makes the cleared entry unreadable in any
store state. -/
theorem connect_failure_clears_stored_token
    (opts : GatewayOptions) (storedToken : Option String) (errMsg : String)
    (d stok ctok : String)
    (hid : opts.deviceIdentity = some d)
    (hstored : storedToken = some stok) (hstok : stok ≠ "")
    (hcfg : opts.token = some ctok) (hctok : ctok ≠ "") :
    connectFailureEffects opts storedToken true errMsg =
      [Effect.clearToken d (opts.role.getD "operator"),
       Effect.connectError errMsg,
       Effect.closeSocket (some 1008) (some "connect failed")] ∧
    (∀ store, loadDeviceAuthToken d (opts.role.getD "operator")
        (clearDeviceAuthToken d (opts.role.getD "operator") store) = none) := by
  constructor
  · simp [connectFailureEffects, hid, hstored, hcfg, jsTruthyStr, hstok, hctok]
  · intro store
    match store with
    | none => rfl
    | some st =>
      by_cases hdd : st.deviceId = d
      · by_cases hrole :
          (lookupRole st.tokens (normalizeRole (opts.role.getD "operator"))).isNone
        · rcases Option.isNone_iff_eq_none.mp hrole with hnone
          simp [clearDeviceAuthToken, hdd, hrole, loadDeviceAuthToken, hnone]
        · simp [clearDeviceAuthToken, hdd, hrole, loadDeviceAuthToken,
                lookupRole_deleteRole]
      · simp [clearDeviceAuthToken, hdd, loadDeviceAuthToken,
              fun h => hdd h]

/-- Witness for C7 at concrete options, error and store. -/
theorem connect_failure_clears_stored_token_witness :
    connectFailureEffects
      { token := some "shared", password := none, role := none,
        scopes := none, deviceIdentity := some "dev" }
      (some "stored") true "boom" =
      [Effect.clearToken "dev" "operator",
       Effect.connectError "boom",
       Effect.closeSocket (some 1008) (some "connect failed")] ∧
    loadDeviceAuthToken "dev" "operator"
      (clearDeviceAuthToken "dev" "operator"
        (some { deviceId := "dev",
                tokens := [("operator", { token := "stored", role := "operator",
                                          scopes := [], updatedAtMs := 0 })] })) = none := by
  have h := connect_failure_clears_stored_token
    { token := some "shared", password := none, role := none,
      scopes := none, deviceIdentity := some "dev" }
    (some "stored") "boom" "dev" "stored" "shared"
    rfl rfl (by decide) rfl (by decide)
  exact ⟨h.1, h.2
    (some { deviceId := "dev",
            tokens := [("operator", { token := "stored", role := "operator",
                                      scopes := [], updatedAtMs := 0 })] })⟩

/-- C3: for an incoming stream event frame (anything but the internally
intercepted connect.challenge) carrying a numeric seq, a gap
(lastSeq plus one, seq) is reported exactly when a previous sequence number
was recorded and seq exceeds lastSeq plus one; lastSeq is updated to seq
and the event is still forwarded, with no synthesized frames; the event
sequence with seq 1, 2, 4 yields exactly one gap report (3, 4) and three
forwarded events. -/
theorem gap_detection_spec
    (opts : GatewayOptions) (storedToken : Option String) (now : Int)
    (s : ClientState) (evt : EventFrame) (n : Nat)
    (hev : evt.event ≠ "connect.challenge") (hseq : evt.seq = some n) :
    ((handleMessage opts storedToken now (Frame.event evt) s).1.lastSeq = some n) ∧
    (∀ last, s.lastSeq = some last → n > last + 1 →
      (handleMessage opts storedToken now (Frame.event evt) s).2 =
        [Effect.gapReport (last + 1) n, Effect.emitEvent evt]) ∧
    (∀ last, s.lastSeq = some last → ¬ n > last + 1 →
      (handleMessage opts storedToken now (Frame.event evt) s).2 =
        [Effect.emitEvent evt]) ∧
    (s.lastSeq = none →
      (handleMessage opts storedToken now (Frame.event evt) s).2 =
        [Effect.emitEvent evt]) ∧
    ((runEvents opts storedToken
        [(now, ConnEvent.msg (seqFrame "agent" 1)),
         (now, ConnEvent.msg (seqFrame "agent" 2)),
         (now, ConnEvent.msg (seqFrame "agent" 4))] initClientState).2 =
      [Effect.emitEvent { event := "agent", payload := none, seq := some 1 },
       Effect.emitEvent { event := "agent", payload := none, seq := some 2 },
       Effect.gapReport 3 4,
       Effect.emitEvent { event := "agent", payload := none, seq := some 4 }]) := by
  have hb : (evt.event == "connect.challenge") = false := by simp [hev]
  refine ⟨?_, ?_, ?_, ?_, rfl⟩
  · cases htick : evt.event == "tick" <;>
      simp [handleMessage, hb, hseq, htick]
  · intro last hls hgt
    cases htick : evt.event == "tick" <;>
      simp [handleMessage, hb, hseq, hls, hgt, htick]
  · intro last hls hgt
    cases htick : evt.event == "tick" <;>
      simp [handleMessage, hb, hseq, hls, hgt, htick]
  · intro hls
    cases htick : evt.event == "tick" <;>
      simp [handleMessage, hb, hseq, hls, htick]

/-- Witness for C3: with lastSeq 1 recorded, an event with seq 4 yields the
gap report (2, 4) followed by the forwarded event, and lastSeq becomes 4. -/
theorem gap_detection_spec_witness :
    ((handleMessage { token := none, password := none, role := none,
                      scopes := none, deviceIdentity := none } none 0
        (Frame.event { event := "agent", payload := none, seq := some 4 })
        { initClientState with lastSeq := some 1 }).1.lastSeq = some 4) ∧
    ((handleMessage { token := none, password := none, role := none,
                      scopes := none, deviceIdentity := none } none 0
        (Frame.event { event := "agent", payload := none, seq := some 4 })
        { initClientState with lastSeq := some 1 }).2 =
      [Effect.gapReport 2 4,
       Effect.emitEvent { event := "agent", payload := none, seq := some 4 }]) := by
  have h := gap_detection_spec
    { token := none, password := none, role := none,
      scopes := none, deviceIdentity := none } none 0
    { initClientState with lastSeq := some 1 }
    { event := "agent", payload := none, seq := some 4 } 4
    (by decide) rfl
  exact ⟨h.1, h.2.1 1 rfl (by decide)⟩

/-- C4: a pending request registered with expectFinal is not settled by a
matching response whose payload status is accepted (the entry stays in the
table and no effect fires); a later response with the same id and a
non-accepted status settles it, resolving with the full payload when ok is
true and rejecting with the error message otherwise. -/
theorem expectFinal_semantics
    (opts : GatewayOptions) (storedToken : Option String) (now : Int)
    (s : ClientState) (r : ResponseFrame)
    (hpend : lookupPending s.pending r.id = some { expectFinal := true }) :
    (statusIsAccepted r.payload = true →
      handleMessage opts storedToken now (Frame.response r) s = (s, [])) ∧
    (statusIsAccepted r.payload = false → r.ok = true →
      handleMessage opts storedToken now (Frame.response r) s =
        ({ s with pending := removePending s.pending r.id },
         [Effect.resolveReq r.id r.payload])) ∧
    (statusIsAccepted r.payload = false → r.ok = false →
      handleMessage opts storedToken now (Frame.response r) s =
        ({ s with pending := removePending s.pending r.id },
         [Effect.rejectReq r.id
           (match r.error with
            | some e => e.message
            | none => "unknown error")])) := by
  refine ⟨?_, ?_, ?_⟩
  · intro hacc
    simp [handleMessage, hpend, hacc]
  · intro hacc hok
    simp [handleMessage, hpend, hacc, hok]
  · intro hacc hok
    simp [handleMessage, hpend, hacc, hok]

/-- Witness for C4: an accepted response leaves the expectFinal entry
pending; the later done response resolves it with the full payload. -/
theorem expectFinal_semantics_witness :
    (handleMessage { token := none, password := none, role := none,
                     scopes := none, deviceIdentity := none } none 0
      (Frame.response { id := 0, ok := true,
                        payload := some (JsonValue.obj
                          [("status", JsonValue.str "accepted")]),
                        error := none })
      { initClientState with pending := [(0, { expectFinal := true })] } =
      ({ initClientState with pending := [(0, { expectFinal := true })] }, [])) ∧
    (handleMessage { token := none, password := none, role := none,
                     scopes := none, deviceIdentity := none } none 0
      (Frame.response { id := 0, ok := true,
                        payload := some (JsonValue.obj
                          [("status", JsonValue.str "done")]),
                        error := none })
      { initClientState with pending := [(0, { expectFinal := true })] } =
      ({ initClientState with pending := [] },
       [Effect.resolveReq 0 (some (JsonValue.obj
          [("status", JsonValue.str "done")]))])) := by
  constructor
  · exact (expectFinal_semantics
      { token := none, password := none, role := none,
        scopes := none, deviceIdentity := none } none 0
      { initClientState with pending := [(0, { expectFinal := true })] }
      { id := 0, ok := true,
        payload := some (JsonValue.obj [("status", JsonValue.str "accepted")]),
        error := none } rfl).1 rfl
  · exact (expectFinal_semantics
      { token := none, password := none, role := none,
        scopes := none, deviceIdentity := none } none 0
      { initClientState with pending := [(0, { expectFinal := true })] }
      { id := 0, ok := true,
        payload := some (JsonValue.obj [("status", JsonValue.str "done")]),
        error := none } rfl).2.1 rfl rfl

/-- C5: a fresh client schedules its first reconnect after 1000 ms; each
scheduled reconnect uses the current backoff and doubles it, capped at
30000 ms, so three consecutive closes from a fresh client schedule delays
1000, 2000, 4000; a successful handshake resets the backoff so that the
next scheduled reconnect waits 1000 ms again. -/
theorem backoff_growth_and_reset (s : ClientState) (hopen : s.closed = false) :
    initClientState.backoffMs = 1000 ∧
    ((scheduleReconnect s).2 = some s.backoffMs ∧
     (scheduleReconnect s).1.backoffMs = min (s.backoffMs * 2) 30000) ∧
    ((scheduleReconnect initClientState).2 = some 1000 ∧
     (scheduleReconnect (scheduleReconnect initClientState).1).2 = some 2000 ∧
     (scheduleReconnect
        (scheduleReconnect (scheduleReconnect initClientState).1).1).2 = some 4000) ∧
    (∀ opts hello now, (connectSuccess opts hello now s).1.backoffMs = 1000 ∧
      (scheduleReconnect (connectSuccess opts hello now s).1).2 = some 1000) := by
  refine ⟨rfl, ⟨?_, ?_⟩, ⟨rfl, rfl, rfl⟩, ?_⟩
  · simp [scheduleReconnect, hopen]
  · simp [scheduleReconnect, hopen]
  · intro opts hello now
    refine ⟨rfl, ?_⟩
    simp [scheduleReconnect, connectSuccess, startTickWatch, hopen]

/-- Witness for C5 at a concrete non-closed state with backoff 8000. -/
theorem backoff_growth_and_reset_witness :
    (scheduleReconnect { initClientState with backoffMs := 8000 }).2 = some 8000 ∧
    (scheduleReconnect { initClientState with backoffMs := 8000 }).1.backoffMs = 16000 ∧
    (scheduleReconnect
      (connectSuccess
        { token := none, password := none, role := none,
          scopes := none, deviceIdentity := none }
        { authDeviceToken := none, authRole := none, authScopes := none,
          policyTickIntervalMs := none } 0
        { initClientState with backoffMs := 8000 }).1).2 = some 1000 := by
  have h := backoff_growth_and_reset { initClientState with backoffMs := 8000 } rfl
  refine ⟨h.2.1.1, ?_, (h.2.2.2
    { token := none, password := none, role := none,
      scopes := none, deviceIdentity := none }
    { authDeviceToken := none, authRole := none, authScopes := none,
      policyTickIntervalMs := none } 0).2⟩
  have h2 := h.2.1.2
  simpa using h2

/-- C6: after a successful handshake the tick interval is the numeric
policy.tickIntervalMs from hello-ok (default 30000), lastTick is the
current time, the watchdog runs on a period of max(tickIntervalMs, 1000),
a watchdog firing with now minus lastTick above twice the tick interval
force-closes the socket with code 4000 and reason tick timeout, and every
incoming tick event refreshes lastTick to the current time. -/
theorem tick_watchdog_spec (opts : GatewayOptions) (hello : HelloOkView)
    (now0 : Int) (s : ClientState) :
    ((connectSuccess opts hello now0 s).1.tickIntervalMs =
      hello.policyTickIntervalMs.getD 30000) ∧
    ((connectSuccess opts hello now0 s).1.tickTimer = true) ∧
    ((connectSuccess opts hello now0 s).1.lastTick = some now0) ∧
    (tickWatchPeriod (connectSuccess opts hello now0 s).1 =
      max (hello.policyTickIntervalMs.getD 30000) 1000) ∧
    (∀ now lt, s.closed = false → s.lastTick = some lt → lt ≠ 0 →
      s.wsOpen = true → now - lt > 2 * s.tickIntervalMs →
      tickWatchFire now s = [Effect.closeSocket (some 4000) (some "tick timeout")]) ∧
    (∀ now evt, evt.event = "tick" →
      (handleMessage opts none now (Frame.event evt) s).1.lastTick = some now) := by
  refine ⟨rfl, rfl, rfl, rfl, ?_, ?_⟩
  · intro now lt hcl hlt hlt0 hws hgap
    have hb : (lt == (0 : Int)) = false := by simp [hlt0]
    simp [tickWatchFire, hcl, hlt, hb, hws, hgap]
  · intro now evt hev
    have hb : (evt.event == "connect.challenge") = false := by simp [hev]
    have ht : (evt.event == "tick") = true := by simp [hev]
    cases hseq : evt.seq <;> simp [handleMessage, hb, ht, hseq]

/-- Witness for C6: hello-ok with a numeric tick interval 100, a watchdog
firing 201 ms after the last tick and a tick event refreshing lastTick. -/
theorem tick_watchdog_spec_witness :
    ((connectSuccess
        { token := none, password := none, role := none,
          scopes := none, deviceIdentity := none }
        { authDeviceToken := none, authRole := none, authScopes := none,
          policyTickIntervalMs := some 100 } 5 initClientState).1.tickIntervalMs
      = 100) ∧
    (tickWatchPeriod (connectSuccess
        { token := none, password := none, role := none,
          scopes := none, deviceIdentity := none }
        { authDeviceToken := none, authRole := none, authScopes := none,
          policyTickIntervalMs := some 100 } 5 initClientState).1 = 1000) ∧
    (tickWatchFire 206
        { initClientState with wsOpen := true, lastTick := some 5,
                               tickIntervalMs := 100 } =
      [Effect.closeSocket (some 4000) (some "tick timeout")]) ∧
    ((handleMessage
        { token := none, password := none, role := none,
          scopes := none, deviceIdentity := none } none 206
        (Frame.event { event := "tick", payload := none, seq := none })
        initClientState).1.lastTick = some 206) := by
  have h := tick_watchdog_spec
    { token := none, password := none, role := none,
      scopes := none, deviceIdentity := none }
    { authDeviceToken := none, authRole := none, authScopes := none,
      policyTickIntervalMs := some 100 } 5 initClientState
  have h2 := tick_watchdog_spec
    { token := none, password := none, role := none,
      scopes := none, deviceIdentity := none }
    { authDeviceToken := none, authRole := none, authScopes := none,
      policyTickIntervalMs := some 100 } 5
    { initClientState with wsOpen := true, lastTick := some 5,
                           tickIntervalMs := 100 }
  refine ⟨h.1, ?_, ?_, ?_⟩
  · have := h.2.2.2.1
    simpa using this
  · exact h2.2.2.2.2.1 206 5 rfl rfl (by decide) rfl (by decide)
  · exact h.2.2.2.2.2 206
      { event := "tick", payload := none, seq := none } rfl

theorem step_preserves_closed (opts : GatewayOptions) (storedToken : Option String)
    (now : Int) (e : ConnEvent) (s : ClientState) (h : s.closed = true) :
    (step opts storedToken now e s).1.closed = true := by
  cases e with
  | wsOpenEvt => simpa [step, queueConnect] using h
  | timerFire =>
    cases hct : s.connectTimer with
    | false => simpa [step, hct] using h
    | true =>
      by_cases hcs : s.connectSent
      · simpa [step, hct, sendConnect, hcs] using h
      · by_cases hws : s.wsOpen
        · simpa [step, hct, sendConnect, hcs, hws] using h
        · simpa [step, hct, sendConnect, connectFailureEffects, hcs, hws] using h
  | wsCloseEvt code reason =>
    simp [step, handleClose, flushPendingErrors, scheduleReconnect, h]
  | msg f =>
    cases f with
    | invalid => simpa [step, handleMessage] using h
    | event evt =>
      cases hch : evt.event == "connect.challenge" with
      | false =>
        cases hseq : evt.seq <;>
          cases htick : evt.event == "tick" <;>
          simp [step, handleMessage, hch, hseq, htick, h]
      | true =>
        cases hn : challengeNonce evt.payload with
        | none => simp [step, handleMessage, hch, hn, h]
        | some nonce =>
          by_cases hcs : s.connectSent
          · simpa [step, handleMessage, hch, hn, sendConnect, hcs] using h
          · by_cases hws : s.wsOpen
            · simpa [step, handleMessage, hch, hn, sendConnect, hcs, hws] using h
            · simpa [step, handleMessage, hch, hn, sendConnect,
                connectFailureEffects, hcs, hws] using h
    | response r =>
      cases hp : lookupPending s.pending r.id with
      | none => simp [step, handleMessage, hp, h]
      | some entry =>
        cases hacc : entry.expectFinal && statusIsAccepted r.payload <;>
          cases hok : r.ok <;>
          simp [step, handleMessage, hp, hacc, hok, h]

/-- C8 counterexample: stop does not clear every client timer. From a
state with the 750 ms connect debounce timer armed, the timer is still
armed after stop. -/
theorem stop_counterexample :
    (stop { initClientState with connectTimer := true }).1.connectTimer = true := rfl

/-- C8 (amended): stop marks the client closed so that no reconnect is
ever scheduled afterwards (scheduleReconnect on a closed state schedules
nothing, and no step unsets closed), clears the tick watchdog timer (the
pending connect debounce timer is not cleared), closes and drops the
socket, and rejects every pending request with a gateway client stopped
error, leaving the pending map empty. -/
theorem stop_spec (s : ClientState) :
    (stop s).1.closed = true ∧
    (stop s).1.tickTimer = false ∧
    (stop s).1.wsOpen = false ∧
    (stop s).1.pending = [] ∧
    (stop s).2 =
      (if s.wsOpen then [Effect.closeSocket none none] else [])
        ++ s.pending.map (fun kv => Effect.rejectReq kv.1 "gateway client stopped") ∧
    (∀ s2 : ClientState, s2.closed = true → scheduleReconnect s2 = (s2, none)) ∧
    (∀ opts2 storedToken2 now2 e2 s2, s2.closed = true →
      (step opts2 storedToken2 now2 e2 s2).1.closed = true) := by
  refine ⟨rfl, rfl, rfl, rfl, rfl, ?_, ?_⟩
  · intro s2 h
    simp [scheduleReconnect, h]
  · intro opts2 storedToken2 now2 e2 s2 h
    exact step_preserves_closed opts2 storedToken2 now2 e2 s2 h

/-- Witness for C8 with an open socket, one pending request and a closed
state fed to scheduleReconnect. -/
theorem stop_spec_witness :
    (stop { initClientState with
              wsOpen := true,
              pending := [(3, { expectFinal := false })] }).1.pending = [] ∧
    (stop { initClientState with
              wsOpen := true,
              pending := [(3, { expectFinal := false })] }).2 =
      [Effect.closeSocket none none,
       Effect.rejectReq 3 "gateway client stopped"] ∧
    scheduleReconnect { initClientState with closed := true } =
      ({ initClientState with closed := true }, none) := by
  have h := stop_spec { initClientState with
                          wsOpen := true,
                          pending := [(3, { expectFinal := false })] }
  refine ⟨h.2.2.2.1, ?_,
    h.2.2.2.2.2.1 { initClientState with closed := true } rfl⟩
  have h5 := h.2.2.2.2.1
  simpa using h5

theorem rejects_no_connect_send (l : List (Nat × PendingEntry)) (m : String) :
    (l.map (fun kv => Effect.rejectReq kv.1 m)).filter isConnectSend = [] := by
  induction l with
  | nil => rfl
  | cons kv rest ih => simpa [List.filter, isConnectSend] using ih

theorem step_quiet (opts : GatewayOptions) (storedToken : Option String)
    (now : Int) (e : ConnEvent) (he : isQuietPre e = true) (s : ClientState) :
    ((step opts storedToken now e s).1.connectTimer = s.connectTimer ∧
     (step opts storedToken now e s).1.connectSent = s.connectSent ∧
     (step opts storedToken now e s).1.connectNonce = s.connectNonce ∧
     (step opts storedToken now e s).1.wsOpen = s.wsOpen) ∧
    (step opts storedToken now e s).2.filter isConnectSend = [] := by
  cases e with
  | wsOpenEvt => simp [isQuietPre] at he
  | timerFire => simp [isQuietPre] at he
  | wsCloseEvt code reason => simp [isQuietPre] at he
  | msg f =>
    cases f with
    | invalid => simp [step, handleMessage]
    | response r =>
      cases hp : lookupPending s.pending r.id with
      | none => simp [step, handleMessage, hp]
      | some entry =>
        cases hacc : entry.expectFinal && statusIsAccepted r.payload <;>
          cases hok : r.ok <;>
          simp [step, handleMessage, hp, hacc, hok, isConnectSend]
    | event evt =>
      cases hch : evt.event == "connect.challenge" with
      | true =>
        cases hn : challengeNonce evt.payload with
        | some nonce => simp [isQuietPre, hch, hn] at he
        | none => simp [step, handleMessage, hch, hn]
      | false =>
        cases hseq : evt.seq with
        | none =>
          cases htick : evt.event == "tick" <;>
            simp [step, handleMessage, hch, hseq, htick, isConnectSend]
        | some n =>
          cases hls : s.lastSeq with
          | none =>
            cases htick : evt.event == "tick" <;>
              simp [step, handleMessage, hch, hseq, hls, htick, isConnectSend]
          | some last =>
            by_cases hgt : n > last + 1 <;>
              cases htick : evt.event == "tick" <;>
              simp [step, handleMessage, hch, hseq, hls, hgt, htick, isConnectSend]

theorem step_no_resend (opts : GatewayOptions) (storedToken : Option String)
    (now : Int) (e : ConnEvent) (he : isWsOpenEvt e = false) (s : ClientState)
    (hcs : s.connectSent = true) (hct : s.connectTimer = false) :
    (step opts storedToken now e s).1.connectSent = true ∧
    (step opts storedToken now e s).1.connectTimer = false ∧
    (step opts storedToken now e s).2.filter isConnectSend = [] := by
  cases e with
  | wsOpenEvt => simp [isWsOpenEvt] at he
  | timerFire => simp [step, hct, hcs]
  | wsCloseEvt code reason =>
    cases hcl : s.closed <;>
      simp [step, handleClose, flushPendingErrors, scheduleReconnect, hcl, hcs,
            hct, rejects_no_connect_send, isConnectSend]
  | msg f =>
    cases f with
    | invalid => simp [step, handleMessage, hcs, hct]
    | response r =>
      cases hp : lookupPending s.pending r.id with
      | none => simp [step, handleMessage, hp, hcs, hct]
      | some entry =>
        cases hacc : entry.expectFinal && statusIsAccepted r.payload <;>
          cases hok : r.ok <;>
          simp [step, handleMessage, hp, hacc, hok, hcs, hct, isConnectSend]
    | event evt =>
      cases hch : evt.event == "connect.challenge" with
      | true =>
        cases hn : challengeNonce evt.payload with
        | some nonce =>
          simp [step, handleMessage, hch, hn, sendConnect, hcs, hct]
        | none => simp [step, handleMessage, hch, hn, hcs, hct]
      | false =>
        cases hseq : evt.seq with
        | none =>
          cases htick : evt.event == "tick" <;>
            simp [step, handleMessage, hch, hseq, htick, hcs, hct, isConnectSend]
        | some n =>
          cases hls : s.lastSeq with
          | none =>
            cases htick : evt.event == "tick" <;>
              simp [step, handleMessage, hch, hseq, hls, htick, hcs, hct,
                    isConnectSend]
          | some last =>
            by_cases hgt : n > last + 1 <;>
              cases htick : evt.event == "tick" <;>
              simp [step, handleMessage, hch, hseq, hls, hgt, htick, hcs, hct,
                    isConnectSend]

theorem runEvents_quiet (opts : GatewayOptions) (storedToken : Option String)
    (pre : List (Int × ConnEvent)) (hpre : ∀ p ∈ pre, isQuietPre p.2 = true)
    (s : ClientState) :
    (runEvents opts storedToken pre s).1.connectTimer = s.connectTimer ∧
    (runEvents opts storedToken pre s).1.connectSent = s.connectSent ∧
    (runEvents opts storedToken pre s).1.connectNonce = s.connectNonce ∧
    (runEvents opts storedToken pre s).1.wsOpen = s.wsOpen ∧
    (runEvents opts storedToken pre s).2.filter isConnectSend = [] := by
  induction pre generalizing s with
  | nil => exact ⟨rfl, rfl, rfl, rfl, rfl⟩
  | cons p rest ih =>
    obtain ⟨now, e⟩ := p
    have hq : isQuietPre e = true := hpre (now, e) (by simp)
    have hstep := step_quiet opts storedToken now e hq s
    have hrest := ih (fun q hq2 => hpre q (List.mem_cons_of_mem _ hq2))
      (step opts storedToken now e s).1
    refine ⟨?_, ?_, ?_, ?_, ?_⟩ <;>
      simp only [runEvents, List.filter_append]
    · rw [hrest.1, hstep.1.1]
    · rw [hrest.2.1, hstep.1.2.1]
    · rw [hrest.2.2.1, hstep.1.2.2.1]
    · rw [hrest.2.2.2.1, hstep.1.2.2.2]
    · simp [hstep.2, hrest.2.2.2.2]

theorem runEvents_no_resend (opts : GatewayOptions) (storedToken : Option String)
    (evs : List (Int × ConnEvent)) (hevs : ∀ p ∈ evs, isWsOpenEvt p.2 = false)
    (s : ClientState) (hcs : s.connectSent = true) (hct : s.connectTimer = false) :
    (runEvents opts storedToken evs s).1.connectSent = true ∧
    (runEvents opts storedToken evs s).1.connectTimer = false ∧
    (runEvents opts storedToken evs s).2.filter isConnectSend = [] := by
  induction evs generalizing s with
  | nil => exact ⟨hcs, hct, rfl⟩
  | cons p rest ih =>
    obtain ⟨now, e⟩ := p
    have hq : isWsOpenEvt e = false := hevs (now, e) (by simp)
    have hstep := step_no_resend opts storedToken now e hq s hcs hct
    have hrest := ih (fun q hq2 => hevs q (List.mem_cons_of_mem _ hq2))
      (step opts storedToken now e s).1 hstep.1 hstep.2.1
    refine ⟨?_, ?_, ?_⟩ <;> simp only [runEvents, List.filter_append]
    · exact hrest.1
    · exact hrest.2.1
    · simp [hstep.2.2, hrest.2.2]

theorem runEvents_append (opts : GatewayOptions) (storedToken : Option String)
    (l1 l2 : List (Int × ConnEvent)) (s : ClientState) :
    runEvents opts storedToken (l1 ++ l2) s =
      ((runEvents opts storedToken l2 (runEvents opts storedToken l1 s).1).1,
       (runEvents opts storedToken l1 s).2
         ++ (runEvents opts storedToken l2 (runEvents opts storedToken l1 s).1).2) := by
  induction l1 generalizing s with
  | nil => simp [runEvents]
  | cons p l1 ih =>
    obtain ⟨now, e⟩ := p
    simp [runEvents, ih]

theorem no_connect_sends_sub (effs : List Effect)
    (h : effs.filter isConnectSend = []) :
    effs.filter isV1ConnectSend = [] ∧
    ∀ m, effs.filter (isV2ConnectSendWith m) = [] := by
  have h' := List.filter_eq_nil_iff.mp h
  constructor
  · refine List.filter_eq_nil_iff.mpr (fun a ha hv => h' a ha ?_)
    cases a <;> simp_all [isV1ConnectSend, isConnectSend]
  · intro m
    refine List.filter_eq_nil_iff.mpr (fun a ha hv => h' a ha ?_)
    cases a <;> simp_all [isV2ConnectSendWith, isConnectSend]

/-- C1 counterexample: a connection in which the server emits the
connect.challenge (with a nonce) before answering any connect request, but
only after the 750 ms debounce fired. The client has then already sent the
v1 connect and the challenge is ignored (connectSent blocks the resend):
one v1 frame is sent and no v2 frame carrying the nonce is ever sent,
against the claimed exactly one of each. -/
theorem challenge_after_debounce_counterexample :
    ((runEvents { token := none, password := none, role := none,
                  scopes := none, deviceIdentity := some "dev" } none
        [(0, ConnEvent.wsOpenEvt), (750, ConnEvent.timerFire),
         (800, ConnEvent.msg (challengeFrame "abc"))]
        initClientState).2.filter isV1ConnectSend).length = 1 ∧
    ((runEvents { token := none, password := none, role := none,
                  scopes := none, deviceIdentity := some "dev" } none
        [(0, ConnEvent.wsOpenEvt), (750, ConnEvent.timerFire),
         (800, ConnEvent.msg (challengeFrame "abc"))]
        initClientState).2.filter (isV2ConnectSendWith "abc")).length = 0 :=
  ⟨rfl, rfl⟩

/-- C1 (amended): on a connection in which the connect.challenge with a
nonempty nonce is delivered after the socket opens and before the 750 ms
connect debounce fires (and before any connect request is answered), the
client queues exactly one v1 (nonce-less) connect attempt, which the
challenge supersedes before any v1 frame is sent, and writes exactly one
connect frame over the whole connection: a v2 whose device block carries
the challenge nonce. -/
theorem challenge_in_debounce_single_v2
    (opts : GatewayOptions) (storedToken : Option String)
    (t0 t1 : Int) (n : String) (hn : n ≠ "")
    (pre : List (Int × ConnEvent)) (hpre : ∀ p ∈ pre, isQuietPre p.2 = true)
    (rest : List (Int × ConnEvent)) (hrest : ∀ p ∈ rest, isWsOpenEvt p.2 = false) :
    ((step opts storedToken t0 ConnEvent.wsOpenEvt initClientState).1.connectTimer = true ∧
     (step opts storedToken t0 ConnEvent.wsOpenEvt initClientState).1.connectNonce = none ∧
     (step opts storedToken t0 ConnEvent.wsOpenEvt initClientState).1.connectSent = false) ∧
    (runEvents opts storedToken
        ((t0, ConnEvent.wsOpenEvt) :: pre ++ (t1, ConnEvent.msg (challengeFrame n)) :: rest)
        initClientState).2.filter isV1ConnectSend = [] ∧
    (runEvents opts storedToken
        ((t0, ConnEvent.wsOpenEvt) :: pre ++ (t1, ConnEvent.msg (challengeFrame n)) :: rest)
        initClientState).2.filter isConnectSend = [Effect.connectSend (some n)] ∧
    (runEvents opts storedToken
        ((t0, ConnEvent.wsOpenEvt) :: pre ++ (t1, ConnEvent.msg (challengeFrame n)) :: rest)
        initClientState).2.filter (isV2ConnectSendWith n) = [Effect.connectSend (some n)] ∧
    (runEvents opts storedToken
        ((t0, ConnEvent.wsOpenEvt) :: pre ++ (t1, ConnEvent.msg (challengeFrame n)) :: rest)
        initClientState).1.connectTimer = false ∧
    (runEvents opts storedToken
        ((t0, ConnEvent.wsOpenEvt) :: pre ++ (t1, ConnEvent.msg (challengeFrame n)) :: rest)
        initClientState).1.connectSent = true := by
  have hopen : step opts storedToken t0 ConnEvent.wsOpenEvt initClientState =
      (queueConnect { initClientState with wsOpen := true }, []) := rfl
  have hq := runEvents_quiet opts storedToken pre hpre
      (queueConnect { initClientState with wsOpen := true })
  have hpreSent : (runEvents opts storedToken pre
      (queueConnect { initClientState with wsOpen := true })).1.connectSent = false := by
    rw [hq.2.1]; rfl
  have hpreWs : (runEvents opts storedToken pre
      (queueConnect { initClientState with wsOpen := true })).1.wsOpen = true := by
    rw [hq.2.2.2.1]; rfl
  have hnonce : challengeNonce
      (some (JsonValue.obj [("nonce", JsonValue.str n)])) = some n := by
    simp [challengeNonce, lookupField, hn]
  have hchEff : (step opts storedToken t1 (ConnEvent.msg (challengeFrame n))
      (runEvents opts storedToken pre
        (queueConnect { initClientState with wsOpen := true })).1).2 =
      [Effect.connectSend (some n)] := by
    simp [step, handleMessage, challengeFrame, hnonce, sendConnect, hpreSent, hpreWs]
  have hchSent : (step opts storedToken t1 (ConnEvent.msg (challengeFrame n))
      (runEvents opts storedToken pre
        (queueConnect { initClientState with wsOpen := true })).1).1.connectSent = true := by
    simp [step, handleMessage, challengeFrame, hnonce, sendConnect, hpreSent, hpreWs]
  have hchTimer : (step opts storedToken t1 (ConnEvent.msg (challengeFrame n))
      (runEvents opts storedToken pre
        (queueConnect { initClientState with wsOpen := true })).1).1.connectTimer = false := by
    simp [step, handleMessage, challengeFrame, hnonce, sendConnect, hpreSent, hpreWs]
  have hrestRun := runEvents_no_resend opts storedToken rest hrest
    (step opts storedToken t1 (ConnEvent.msg (challengeFrame n))
      (runEvents opts storedToken pre
        (queueConnect { initClientState with wsOpen := true })).1).1 hchSent hchTimer
  have htot : (runEvents opts storedToken
      ((t0, ConnEvent.wsOpenEvt) :: pre ++ (t1, ConnEvent.msg (challengeFrame n)) :: rest)
      initClientState).2 =
      (runEvents opts storedToken pre
        (queueConnect { initClientState with wsOpen := true })).2
      ++ ([Effect.connectSend (some n)]
      ++ (runEvents opts storedToken rest
            (step opts storedToken t1 (ConnEvent.msg (challengeFrame n))
              (runEvents opts storedToken pre
                (queueConnect { initClientState with wsOpen := true })).1).1).2) := by
    simp only [runEvents, hopen]
    simp [runEvents_append, runEvents, hchEff]
  have htots : (runEvents opts storedToken
      ((t0, ConnEvent.wsOpenEvt) :: pre ++ (t1, ConnEvent.msg (challengeFrame n)) :: rest)
      initClientState).1 =
      (runEvents opts storedToken rest
        (step opts storedToken t1 (ConnEvent.msg (challengeFrame n))
          (runEvents opts storedToken pre
            (queueConnect { initClientState with wsOpen := true })).1).1).1 := by
    simp only [runEvents, hopen]
    simp [runEvents_append, runEvents]
  refine ⟨⟨rfl, rfl, rfl⟩, ?_, ?_, ?_, ?_, ?_⟩
  · rw [htot]
    simp [List.filter_append, (no_connect_sends_sub _ hq.2.2.2.2).1,
          (no_connect_sends_sub _ hrestRun.2.2).1, isV1ConnectSend]
  · rw [htot]
    simp [List.filter_append, hq.2.2.2.2, hrestRun.2.2, isConnectSend]
  · rw [htot]
    simp [List.filter_append, (no_connect_sends_sub _ hq.2.2.2.2).2 n,
          (no_connect_sends_sub _ hrestRun.2.2).2 n, isV2ConnectSendWith]
  · rw [htots]
    exact hrestRun.2.1
  · rw [htots]
    exact hrestRun.1

/-- Witness for C1 (amended) on the two-event connection: open, then the
challenge inside the debounce window; no v1 frame, one v2 frame. -/
theorem challenge_in_debounce_single_v2_witness :
    (runEvents { token := none, password := none, role := none,
                 scopes := none, deviceIdentity := some "dev" } none
        [(0, ConnEvent.wsOpenEvt), (10, ConnEvent.msg (challengeFrame "abc"))]
        initClientState).2.filter isConnectSend = [Effect.connectSend (some "abc")] ∧
    (runEvents { token := none, password := none, role := none,
                 scopes := none, deviceIdentity := some "dev" } none
        [(0, ConnEvent.wsOpenEvt), (10, ConnEvent.msg (challengeFrame "abc"))]
        initClientState).2.filter isV1ConnectSend = [] := by
  have h := challenge_in_debounce_single_v2
    { token := none, password := none, role := none,
      scopes := none, deviceIdentity := some "dev" } none 0 10 "abc"
    (by decide) [] (by simp) [] (by simp)
  exact ⟨h.2.2.1, h.2.1⟩

/-- C9 counterexample: in remote mode with no explicit flag and no url
override, the OPENCLAW_GATEWAY_TOKEN environment variable is ignored for
the token and the config-stored remote token wins, against the claimed
explicit-then-env-then-config order, which would pick the env value. -/
theorem callGateway_token_precedence_counterexample :
    resolveGatewayToken
      { optsToken := none, optsPassword := none, optsUrl := none,
        gatewayMode := some "remote", remoteToken := some "remotetok",
        remotePassword := none, envOpenclawToken := some "envtok",
        envClawdbotToken := none, envOpenclawPassword := none,
        envClawdbotPassword := none, configAuthToken := none,
        configAuthPassword := none } = some "remotetok" ∧
    firstTrimmedNonempty (claimedTokenOrder
      { optsToken := none, optsPassword := none, optsUrl := none,
        gatewayMode := some "remote", remoteToken := some "remotetok",
        remotePassword := none, envOpenclawToken := some "envtok",
        envClawdbotToken := none, envOpenclawPassword := none,
        envClawdbotPassword := none, configAuthToken := none,
        configAuthPassword := none }) = some "envtok" ∧
    ("remotetok" : String) ≠ "envtok" :=
  ⟨rfl, rfl, by decide⟩

/-- C9 (amended): explicit flags always win; with a url override no other
source is consulted; otherwise the password falls back to the OPENCLAW then
CLAWDBOT env password and then to config (the remote password in remote
mode, the gateway auth password otherwise), while the token in remote mode
falls back only to the config remote token (env ignored) and in local mode
to the OPENCLAW then CLAWDBOT env token and then the gateway auth token;
the resolved value is the first trimmed nonempty source in that order. -/
theorem gateway_auth_precedence (i : CallGatewayInputs) :
    resolveGatewayToken i = firstTrimmedNonempty (actualTokenOrder i) ∧
    resolveGatewayPassword i = firstTrimmedNonempty (actualPasswordOrder i) := by
  constructor
  · simp only [resolveGatewayToken, explicitGatewayToken, actualTokenOrder]
    cases ht : trimmedNonempty i.optsToken with
    | some t => simp [firstTrimmedNonempty, ht]
    | none =>
      by_cases hu : (gatewayUrlOverride i).isSome
      · simp [firstTrimmedNonempty, ht, hu]
      · by_cases hr : isRemoteMode i
        · cases h2 : trimmedNonempty i.remoteToken <;>
            simp [firstTrimmedNonempty, ht, hu, hr, h2]
        · cases h2 : trimmedNonempty i.envOpenclawToken <;>
            cases h3 : trimmedNonempty i.envClawdbotToken <;>
            cases h4 : trimmedNonempty i.configAuthToken <;>
            simp [firstTrimmedNonempty, ht, hu, hr, h2, h3, h4]
  · simp only [resolveGatewayPassword, explicitGatewayPassword, actualPasswordOrder]
    cases ht : trimmedNonempty i.optsPassword with
    | some t => simp [firstTrimmedNonempty, ht]
    | none =>
      by_cases hu : (gatewayUrlOverride i).isSome
      · simp [firstTrimmedNonempty, ht, hu]
      · by_cases hr : isRemoteMode i
        · cases h2 : trimmedNonempty i.envOpenclawPassword <;>
            cases h3 : trimmedNonempty i.envClawdbotPassword <;>
            cases h4 : trimmedNonempty i.remotePassword <;>
            simp [firstTrimmedNonempty, ht, hu, hr, h2, h3, h4]
        · cases h2 : trimmedNonempty i.envOpenclawPassword <;>
            cases h3 : trimmedNonempty i.envClawdbotPassword <;>
            cases h4 : trimmedNonempty i.configAuthPassword <;>
            simp [firstTrimmedNonempty, ht, hu, hr, h2, h3, h4]
